import Mathlib

/-!
Shallow embedding of the package-validation subsystem of the
transaction-relay layer (policy/packages and the package-acceptance
orchestration), together with proofs of its structural properties.

The repository snapshot under verification contains the unit tests of the
subsystem (src/src/test/txpackage_tests.cpp); the implementation files
(policy/packages.h, policy/packages.cpp and the package path of
validation.cpp) are not part of the snapshot.  The definitions below are
therefore modelled from the specification of those components, and each
such definition is marked accordingly.  The test file is used as the
authority wherever it pins concrete behavior: in particular it shows that
a length-one package whose sole member is oversized passes the structural
sanitizer and fails only at individual-transaction evaluation, so the
aggregate-size check below applies only to packages with more than one
member, exactly as the specification describes for that edge case.
-/

/-- Transaction identifier: an immutable fixed-size content hash with
bitwise equality, modelled as a natural number. -/
abbrev TxId := Nat

/-- Outpoint: a pair of a transaction identifier and an output index,
identifying one spendable output. -/
abbrev OutPoint := TxId × Nat

/-- Modelled from the spec: the transaction value type
(primitives/transaction.h) is not in the snapshot.  A transaction carries
its identifier, a list of inputs (each consuming one outpoint) and a
derived virtual size; outputs carry nothing the package checks consult,
so they are omitted. -/
structure Transaction where
  txid : TxId
  vin : List OutPoint
  vsize : Nat
deriving DecidableEq

/-- A package is an ordered sequence of transactions. -/
abbrev Package := List Transaction

/-- Modelled from the spec: MAX_PACKAGE_COUNT (policy/packages.h) is not
in the snapshot; the count bound is fixed at 50 transactions. -/
def MAX_PACKAGE_COUNT : Nat := 50

/-- Modelled from the spec: MAX_PACKAGE_SIZE (policy/packages.h) is not
in the snapshot; the aggregate bound is 101 kvB, i.e. 101,000 virtual
bytes after multiplying by 1000. -/
def MAX_PACKAGE_SIZE : Nat := 101

/-- Sum of the virtual sizes of the members of a package. -/
def totalVsize (txns : Package) : Nat :=
  (txns.map Transaction.vsize).sum

/-- `txSpends a b` holds when some input of `a` consumes an outpoint
produced by `b`, i.e. references the identifier of `b`. -/
def txSpends (a b : Transaction) : Bool :=
  a.vin.any fun inp => inp.1 == b.txid

/-- Modelled from the spec: the topological-ordering test of CheckPackage
(policy/packages.cpp) is not in the snapshot.  A package is sorted when
no member consumes an outpoint produced by a later member: for every pair
of positions i < j, the transaction at i does not spend an output of the
transaction at j. -/
def sortedPackage : Package → Bool
  | [] => true
  | t :: rest => (rest.all fun later => !(txSpends t later)) && sortedPackage rest

/-- The two kinds of package-level failure: a structural policy violation,
or the failure of an individual member transaction. -/
inductive PackageValidationResult
  | PCKG_POLICY
  | PCKG_TX
deriving DecidableEq

/-- Tri-state outcome for a whole package: valid, or invalid tagged with
a result kind and a machine-stable reject-reason string. -/
inductive PackageValidationState
  | valid
  | invalid (result : PackageValidationResult) (reason : String)
deriving DecidableEq

/-- Modelled from the spec: CheckPackage (policy/packages.cpp) is not in
the snapshot.  Stateless structural sanitizer; checks in order, first
failure wins: the count bound, the aggregate virtual-size bound (which,
per the oversized-singleton edge case exercised by the tests, applies
only to packages with more than one member, so that a lone oversized
transaction is instead reported by individual evaluation), and the
topological ordering of the sequence. -/
def CheckPackage (txns : Package) : PackageValidationState :=
  if txns.length > MAX_PACKAGE_COUNT then
    .invalid .PCKG_POLICY "package-too-many-transactions"
  else if txns.length > 1 ∧ totalVsize txns > MAX_PACKAGE_SIZE * 1000 then
    .invalid .PCKG_POLICY "package-too-large"
  else if sortedPackage txns = false then
    .invalid .PCKG_POLICY "package-not-sorted"
  else
    .valid

/-- Modelled from the spec: IsChildWithParents (policy/packages.cpp) is
not in the snapshot.  Pure shape classifier: the last element of the
sequence is the sole child, and every other element must be a direct
parent of that child, meaning at least one input of the last transaction
consumes an outpoint whose identifier matches that element.  An empty
sequence has no child and is not of this shape. -/
def IsChildWithParents (package : Package) : Bool :=
  match package.getLast? with
  | none => false
  | some child =>
    package.dropLast.all fun ptx => child.vin.any fun inp => inp.1 == ptx.txid

/-- Outcome of the external single-transaction acceptance engine for one
member: individually valid with derived metrics (effective virtual size
and fee), or invalid with an engine-defined reject reason. -/
inductive MempoolAcceptResult
  | valid (vsize : Nat) (fees : Nat)
  | invalid (reason : String)
deriving DecidableEq

/-- Whether a per-transaction outcome is the valid variant. -/
def acceptOk : MempoolAcceptResult → Bool
  | .valid _ _ => true
  | .invalid _ => false

/-- The return value of the orchestrator: the overall package state plus
the per-transaction result mapping keyed by transaction identifier. -/
structure PackageMempoolAcceptResult where
  m_state : PackageValidationState
  m_tx_results : List (TxId × MempoolAcceptResult)
deriving DecidableEq

/-- The pending-transaction pool, observable through its size; modelled
as the list of identifiers of the resident transactions. -/
abbrev Mempool := List TxId

/-- Modelled from the spec: ProcessNewPackage (validation.cpp) is not in
the snapshot.  Orchestration: run the structural sanitizer and return
immediately on failure with an empty result mapping and no side effect;
otherwise evaluate every member in sequence order through the external
acceptance engine, record each outcome keyed by identifier, report
overall valid when every member is individually valid and otherwise the
member-transaction-failure kind with the fixed reason, and leave the pool
untouched in test-accept mode while submit mode inserts the individually
valid members. -/
def ProcessNewPackage (engine : Transaction → MempoolAcceptResult)
    (pool : Mempool) (txns : Package) ( test_accept : Bool) :
    PackageMempoolAcceptResult × Mempool :=
  match CheckPackage txns with
  | .invalid r s => (⟨.invalid r s, []⟩, pool)
  | .valid =>
    let results := txns.map fun tx => (tx.txid, engine tx)
    let overall : PackageValidationState :=
      if results.all fun p => acceptOk p.2 then .valid
      else .invalid .PCKG_TX "transaction failed"
    let pool2 : Mempool :=
      if test_accept then pool
      else pool ++ ((results.filter fun p => acceptOk p.2).map Prod.fst)
    (⟨overall, results⟩, pool2)

/-- Lookup in the per-transaction result mapping by transaction
identifier. -/
def findResult (m : List (TxId × MempoolAcceptResult)) (i : TxId) :
    Option MempoolAcceptResult :=
  (m.find? fun p => p.1 == i).map Prod.snd

/-- The sortedness test agrees with the pairwise no-later-spend relation. -/
theorem sortedPackage_iff (l : Package) :
    sortedPackage l = true ↔ l.Pairwise fun a b => txSpends a b = false := by
  induction l with
  | nil => simp [sortedPackage]
  | cons t rest ih =>
    simp only [sortedPackage, Bool.and_eq_true, List.all_eq_true,
      Bool.not_eq_true', List.pairwise_cons, ih]

/-- A trivial placeholder transaction with a given identifier: no inputs,
virtual size one. -/
def placeholderTx (i : TxId) : Transaction := ⟨i, [], 1⟩

/-- A 51-member package of placeholder transactions. -/
def pkg51 : Package := (List.range 51).map placeholderTx

/-- C6: every package longer than 50 transactions is rejected by
CheckPackage with the policy-violation kind and reject reason
package-too-many-transactions, independent of content. -/
theorem checkPackage_count_bound (txns : Package) (h : txns.length > 50) :
    CheckPackage txns = .invalid .PCKG_POLICY "package-too-many-transactions" := by
  simp only [CheckPackage, MAX_PACKAGE_COUNT]
  rw [if_pos h]

/-- Concrete instance of the count bound for a 51-member package. -/
theorem checkPackage_count_bound_witness :
    pkg51.length > 50 ∧
      CheckPackage pkg51 = .invalid .PCKG_POLICY "package-too-many-transactions" :=
  ⟨by decide, checkPackage_count_bound pkg51 (by decide)⟩

/-- A lone transaction whose virtual size exceeds the aggregate bound. -/
def giantTx : Transaction := ⟨0, [(1, 0)], 101001⟩

/-- C7 counterexample: a length-one package within the count bound whose
summed virtual size exceeds 101,000 is nevertheless accepted by
CheckPackage, so the aggregate-size rejection does not cover it. -/
theorem checkPackage_size_single_cex :
    [giantTx].length ≤ 50 ∧ totalVsize [giantTx] > 101000 ∧
      CheckPackage [giantTx] = .valid ∧
      CheckPackage [giantTx] ≠ .invalid .PCKG_POLICY "package-too-large" := by
  decide

/-- C7 (amended): every package with at least two and at most fifty
members whose summed virtual size exceeds 101,000 virtual bytes is
rejected by CheckPackage with the policy-violation kind and reject
reason package-too-large. -/
theorem checkPackage_size_bound (txns : Package) (h2 : 2 ≤ txns.length)
    (h50 : txns.length ≤ 50) (hsz : totalVsize txns > 101000) :
    CheckPackage txns = .invalid .PCKG_POLICY "package-too-large" := by
  simp only [CheckPackage, MAX_PACKAGE_COUNT, MAX_PACKAGE_SIZE]
  rw [if_neg (by omega), if_pos ⟨by omega, by omega⟩]

/-- A large transaction used to overflow the aggregate bound pairwise. -/
def bigTxA : Transaction := ⟨100, [(1, 0)], 60000⟩

/-- A second large transaction used to overflow the aggregate bound. -/
def bigTxB : Transaction := ⟨101, [(2, 0)], 60000⟩

/-- Concrete instance of the aggregate-size bound for a two-member
package of 60,000-virtual-byte transactions. -/
theorem checkPackage_size_bound_witness :
    2 ≤ ([bigTxA, bigTxB] : Package).length ∧
      ([bigTxA, bigTxB] : Package).length ≤ 50 ∧
      totalVsize [bigTxA, bigTxB] > 101000 ∧
      CheckPackage [bigTxA, bigTxB] = .invalid .PCKG_POLICY "package-too-large" :=
  ⟨by decide, by decide, by decide,
    checkPackage_size_bound [bigTxA, bigTxB] (by decide) (by decide) (by decide)⟩

/-- A small transaction spending an outpoint outside the package. -/
def dupTx : Transaction := ⟨5, [(1, 0)], 100⟩

/-- C8 counterexample: a package of two members with the same transaction
identifier that CheckPackage accepts, so distinct identifiers are not
enforced by the structural sanitizer. -/
theorem checkPackage_duplicates_cex :
    (([dupTx, dupTx] : Package).get ⟨0, by decide⟩).txid =
        (([dupTx, dupTx] : Package).get ⟨1, by decide⟩).txid ∧
      CheckPackage [dupTx, dupTx] = .valid := by
  decide

/-- C8 (amended): CheckPackage does not enforce distinct transaction
identifiers: a package of two copies of one transaction passes the
sanitizer whenever it is within the aggregate-size bound and the
transaction does not reference its own identifier. -/
theorem checkPackage_duplicates_not_enforced (t : Transaction)
    (hself : txSpends t t = false) (hsz : totalVsize [t, t] ≤ 101000) :
    CheckPackage [t, t] = .valid := by
  have h1 : ¬ (([t, t] : Package).length > MAX_PACKAGE_COUNT) := by
    simp [MAX_PACKAGE_COUNT]
  have h2 : ¬ (([t, t] : Package).length > 1 ∧
      totalVsize [t, t] > MAX_PACKAGE_SIZE * 1000) := by
    rintro ⟨-, hgt⟩
    simp only [MAX_PACKAGE_SIZE] at hgt
    omega
  have h3 : ¬ (sortedPackage [t, t] = false) := by
    simp [sortedPackage, hself]
  unfold CheckPackage
  rw [if_neg h1, if_neg h2, if_neg h3]

/-- Concrete instance: duplicate identifiers pass the sanitizer. -/
theorem checkPackage_duplicates_not_enforced_witness :
    txSpends dupTx dupTx = false ∧ totalVsize [dupTx, dupTx] ≤ 101000 ∧
      CheckPackage [dupTx, dupTx] = .valid :=
  ⟨by decide, by decide,
    checkPackage_duplicates_not_enforced dupTx (by decide) (by decide)⟩

/-- C1 (amended): within the count and aggregate-size bounds, the
topological-ordering rule holds: whenever some position i spends an
outpoint produced by a later position j, CheckPackage rejects the
package with the policy-violation kind and reject reason
package-not-sorted; in particular a pair [parent, child] where only the
child spends the parent passes the check while the reversed
[child, parent] fails it with that reason. -/
theorem checkPackage_topological :
    (∀ txns : Package, txns.length ≤ 50 → totalVsize txns ≤ 101000 →
      (∃ i j : Fin txns.length, i < j ∧ txSpends (txns.get i) (txns.get j) = true) →
      CheckPackage txns = .invalid .PCKG_POLICY "package-not-sorted") ∧
    (∀ parent child : Transaction, txSpends child parent = true →
      txSpends parent child = false → totalVsize [parent, child] ≤ 101000 →
      CheckPackage [parent, child] = .valid ∧
      CheckPackage [child, parent] = .invalid .PCKG_POLICY "package-not-sorted") := by
  constructor
  · intro txns h50 hsz ⟨i, j, hij, hspend⟩
    have hns : sortedPackage txns = false := by
      rw [Bool.eq_false_iff]
      intro hs
      have hp := (sortedPackage_iff txns).mp hs
      have := List.pairwise_iff_get.mp hp i j hij
      rw [hspend] at this
      simp at this
    have h1 : ¬ (txns.length > MAX_PACKAGE_COUNT) := by
      simp only [MAX_PACKAGE_COUNT]; omega
    have h2 : ¬ (txns.length > 1 ∧ totalVsize txns > MAX_PACKAGE_SIZE * 1000) := by
      rintro ⟨-, hgt⟩
      simp only [MAX_PACKAGE_SIZE] at hgt
      omega
    unfold CheckPackage
    rw [if_neg h1, if_neg h2, if_pos hns]
  · intro parent child hspend hrev hsz
    constructor
    · have h1 : ¬ (([parent, child] : Package).length > MAX_PACKAGE_COUNT) := by
        simp [MAX_PACKAGE_COUNT]
      have h2 : ¬ (([parent, child] : Package).length > 1 ∧
          totalVsize [parent, child] > MAX_PACKAGE_SIZE * 1000) := by
        rintro ⟨-, hgt⟩
        simp only [MAX_PACKAGE_SIZE] at hgt
        omega
      have h3 : ¬ (sortedPackage [parent, child] = false) := by
        simp [sortedPackage, hrev]
      unfold CheckPackage
      rw [if_neg h1, if_neg h2, if_neg h3]
    · have h1 : ¬ (([child, parent] : Package).length > MAX_PACKAGE_COUNT) := by
        simp [MAX_PACKAGE_COUNT]
      have hsz2 : totalVsize [child, parent] = totalVsize [parent, child] := by
        simp [totalVsize]; omega
      have h2 : ¬ (([child, parent] : Package).length > 1 ∧
          totalVsize [child, parent] > MAX_PACKAGE_SIZE * 1000) := by
        rintro ⟨-, hgt⟩
        rw [hsz2] at hgt
        simp only [MAX_PACKAGE_SIZE] at hgt
        omega
      have h3 : sortedPackage [child, parent] = false := by
        simp [sortedPackage, hspend]
      unfold CheckPackage
      rw [if_neg h1, if_neg h2, if_pos h3]

/-- A transaction that spends an output of the placeholder with
identifier one. -/
def depTx0 : Transaction := ⟨0, [(1, 0)], 1⟩

/-- A 51-member package whose first member spends an output of its
second member. -/
def cexPkg51 : Package := depTx0 :: placeholderTx 1 :: List.replicate 49 (placeholderTx 2)

/-- C1 counterexample: in a 51-member package the member at position 0
spends an outpoint produced by the member at position 1, yet CheckPackage
reports package-too-many-transactions rather than package-not-sorted,
because the count bound is checked first. -/
theorem checkPackage_topological_cex :
    txSpends (cexPkg51.get ⟨0, by decide⟩) (cexPkg51.get ⟨1, by decide⟩) = true ∧
      CheckPackage cexPkg51 ≠ .invalid .PCKG_POLICY "package-not-sorted" ∧
      CheckPackage cexPkg51 = .invalid .PCKG_POLICY "package-too-many-transactions" := by
  decide

/-- A parent transaction spending an outside coinbase outpoint. -/
def parentTx : Transaction := ⟨20, [(1, 0)], 100⟩

/-- A child transaction spending the first output of parentTx. -/
def childTx : Transaction := ⟨21, [(20, 0)], 100⟩

/-- Concrete instance of the ordering rule: the pair [parentTx, childTx]
passes CheckPackage and the reversed pair fails with
package-not-sorted. -/
theorem checkPackage_topological_witness :
    txSpends childTx parentTx = true ∧ txSpends parentTx childTx = false ∧
      CheckPackage [parentTx, childTx] = .valid ∧
      CheckPackage [childTx, parentTx] = .invalid .PCKG_POLICY "package-not-sorted" :=
  ⟨by decide, by decide,
    (checkPackage_topological.2 parentTx childTx (by decide) (by decide) (by decide)).1,
    (checkPackage_topological.2 parentTx childTx (by decide) (by decide) (by decide)).2⟩

/-- C2: the shape classifier is exactly the direct-parent test: for a
nonempty package it returns true iff, for every non-last element, at
least one input of the last element references an outpoint whose
transaction identifier equals the identifier of that element; and its
result is unchanged by any permutation of the non-last elements. -/
theorem isChildWithParents_spec :
    (∀ (package : Package) (h : package ≠ []),
      IsChildWithParents package = true ↔
        ∀ tx ∈ package.dropLast,
          ∃ inp ∈ (package.getLast h).vin, inp.1 = tx.txid) ∧
    (∀ (l₁ l₂ : List Transaction) (c : Transaction), l₁.Perm l₂ →
      IsChildWithParents (l₁ ++ [c]) = IsChildWithParents (l₂ ++ [c])) := by
  constructor
  · intro package h
    rw [IsChildWithParents, List.getLast?_eq_getLast package h]
    simp [List.all_eq_true, List.any_eq_true]
  · intro l₁ l₂ c hperm
    simp only [IsChildWithParents, List.getLast?_concat, List.dropLast_concat]
    have h12 : ((l₁.all fun ptx => c.vin.any fun inp => inp.1 == ptx.txid) = true) ↔
        ((l₂.all fun ptx => c.vin.any fun inp => inp.1 == ptx.txid) = true) := by
      simp only [List.all_eq_true]
      exact ⟨fun hl x hx => hl x (hperm.mem_iff.mpr hx),
        fun hl x hx => hl x (hperm.mem_iff.mp hx)⟩
    exact Bool.coe_iff_coe.mp h12

/-- A first parent placeholder for the shape-classifier instances. -/
def pTxA : Transaction := ⟨30, [(2, 0)], 10⟩

/-- A second parent placeholder for the shape-classifier instances. -/
def pTxB : Transaction := ⟨31, [(3, 0)], 10⟩

/-- A child spending one output of each of pTxA and pTxB. -/
def cTx : Transaction := ⟨32, [(30, 0), (31, 0)], 10⟩

/-- Concrete instance of the shape-classifier characterization: the
classifier accepts [pTxA, pTxB, cTx], and swapping the two parents does
not change its result. -/
theorem isChildWithParents_spec_witness :
    (IsChildWithParents [pTxA, pTxB, cTx] = true ↔
      ∀ tx ∈ ([pTxA, pTxB, cTx] : Package).dropLast,
        ∃ inp ∈ (([pTxA, pTxB, cTx] : Package).getLast (by decide)).vin,
          inp.1 = tx.txid) ∧
    IsChildWithParents ([pTxA, pTxB] ++ [cTx]) =
      IsChildWithParents ([pTxB, pTxA] ++ [cTx]) :=
  ⟨isChildWithParents_spec.1 [pTxA, pTxB, cTx] (by decide),
    isChildWithParents_spec.2 [pTxA, pTxB] [pTxB, pTxA] cTx (List.Perm.swap pTxB pTxA [])⟩

/-- A child spending one output of each of pTxA and pTxB and also an
outpoint of a transaction outside the package. -/
def cTxExt : Transaction := ⟨33, [(30, 0), (31, 0), (999, 0)], 10⟩

/-- C10: the shape classifier does not require the inputs of the last
element to reference only package members: if the last element
references every non-last element, it may additionally reference a
transaction that is not in the package and the classifier still returns
true. -/
theorem isChildWithParents_external_ref (l : List Transaction) (c : Transaction)
    (extId : TxId)
    (hall : ∀ tx ∈ l, ∃ inp ∈ c.vin, inp.1 = tx.txid)
    (_hext : ∃ inp ∈ c.vin, inp.1 = extId)
    (_hout : ∀ tx ∈ l ++ [c], tx.txid ≠ extId) :
    IsChildWithParents (l ++ [c]) = true := by
  simp only [IsChildWithParents, List.getLast?_concat, List.dropLast_concat,
    List.all_eq_true, List.any_eq_true]
  intro tx htx
  obtain ⟨inp, hinp, heq⟩ := hall tx htx
  exact ⟨inp, hinp, by simp [heq]⟩

/-- Concrete instance: the classifier accepts [pTxA, pTxB, cTxExt] even
though cTxExt also references identifier 999, which no member carries. -/
theorem isChildWithParents_external_ref_witness :
    (∃ inp ∈ cTxExt.vin, inp.1 = 999) ∧
      (∀ tx ∈ ([pTxA, pTxB] : List Transaction) ++ [cTxExt], tx.txid ≠ 999) ∧
      IsChildWithParents (([pTxA, pTxB] : List Transaction) ++ [cTxExt]) = true :=
  ⟨by decide, by decide,
    isChildWithParents_external_ref [pTxA, pTxB] cTxExt 999
      (by decide) (by decide) (by decide)⟩

/-- C3: in test-accept mode the orchestrator leaves the observable pool
size unchanged, for every engine, pool, package and outcome. -/
theorem processNewPackage_test_accept_pool_size
    (engine : Transaction → MempoolAcceptResult) (pool : Mempool) (txns : Package) :
    ((ProcessNewPackage engine pool txns true).2).length = pool.length := by
  cases h : CheckPackage txns <;> simp [ProcessNewPackage, h]

/-- C5: whenever the structural sanitizer rejects a package, the
orchestrator returns immediately with that invalid state, which is
always of the policy-violation kind, an empty per-transaction result
mapping, and the pool unchanged, in either mode. -/
theorem processNewPackage_sanitizer_failure
    (engine : Transaction → MempoolAcceptResult) (pool : Mempool) (txns : Package)
    ( test_accept : Bool) (r : PackageValidationResult) (s : String)
    (h : CheckPackage txns = .invalid r s) :
    ProcessNewPackage engine pool txns test_accept = (⟨.invalid r s, []⟩, pool) ∧
      r = .PCKG_POLICY := by
  refine ⟨by simp [ProcessNewPackage, h], ?_⟩
  by_cases h1 : txns.length > MAX_PACKAGE_COUNT
  · simp only [CheckPackage, if_pos h1, PackageValidationState.invalid.injEq] at h
    exact h.1.symm
  · by_cases h2 : txns.length > 1 ∧ totalVsize txns > MAX_PACKAGE_SIZE * 1000
    · simp only [CheckPackage, if_neg h1, if_pos h2,
        PackageValidationState.invalid.injEq] at h
      exact h.1.symm
    · by_cases h3 : sortedPackage txns = false
      · simp only [CheckPackage, if_neg h1, if_neg h2, if_pos h3,
          PackageValidationState.invalid.injEq] at h
        exact h.1.symm
      · simp only [CheckPackage, if_neg h1, if_neg h2, if_neg h3] at h
        exact absurd h (by simp)

/-- An acceptance engine that validates every transaction at its own
virtual size with zero fee. -/
def engineAllValid : Transaction → MempoolAcceptResult :=
  fun t => .valid t.vsize 0

/-- Concrete instance: on the reversed pair [childTx, parentTx] the
sanitizer fails with package-not-sorted and the orchestrator returns
that state with an empty mapping and the pool untouched. -/
theorem processNewPackage_sanitizer_failure_witness :
    CheckPackage [childTx, parentTx] =
        .invalid .PCKG_POLICY "package-not-sorted" ∧
      ProcessNewPackage engineAllValid [7] [childTx, parentTx] true =
        (⟨.invalid .PCKG_POLICY "package-not-sorted", []⟩, [7]) :=
  ⟨by decide,
    (processNewPackage_sanitizer_failure engineAllValid [7] [childTx, parentTx]
      true .PCKG_POLICY "package-not-sorted" (by decide)).1⟩

/-- C4: a length-one package whose sole transaction is oversized and is
rejected by the acceptance engine yields an overall invalid state of the
member-transaction-failure kind with the fixed reason, while the
per-transaction mapping carries the engine reason for that transaction
under its identifier. -/
theorem processNewPackage_single_oversized
    (engine : Transaction → MempoolAcceptResult) (pool : Mempool)
    (tx : Transaction) (reason : String)
    (_hsize : tx.vsize > 101000)
    (hengine : engine tx = .invalid reason) :
    (ProcessNewPackage engine pool [tx] true).1.m_state =
        .invalid .PCKG_TX "transaction failed" ∧
      findResult (ProcessNewPackage engine pool [tx] true).1.m_tx_results tx.txid =
        some (.invalid reason) := by
  have hchk : CheckPackage [tx] = .valid := by
    have h1 : ¬ (([tx] : Package).length > MAX_PACKAGE_COUNT) := by
      simp [MAX_PACKAGE_COUNT]
    have h2 : ¬ (([tx] : Package).length > 1 ∧
        totalVsize [tx] > MAX_PACKAGE_SIZE * 1000) := by
      rintro ⟨hgt, -⟩
      simp at hgt
    have h3 : ¬ (sortedPackage [tx] = false) := by
      simp [sortedPackage]
    unfold CheckPackage
    rw [if_neg h1, if_neg h2, if_neg h3]
  simp [ProcessNewPackage, hchk, hengine, acceptOk, findResult]

/-- An acceptance engine that rejects every transaction with the
size-derived reason tx-size. -/
def engineRejectSize : Transaction → MempoolAcceptResult :=
  fun _ => .invalid "tx-size"

/-- An oversized transaction submitted alone. -/
def oversizeTx : Transaction := ⟨40, [(2, 0)], 101500⟩

/-- Concrete instance of the oversized-singleton path: overall state is
the member-transaction-failure kind with reason transaction failed and
the mapping holds the engine reason tx-size. -/
theorem processNewPackage_single_oversized_witness :
    oversizeTx.vsize > 101000 ∧
      engineRejectSize oversizeTx = .invalid "tx-size" ∧
      (ProcessNewPackage engineRejectSize [] [oversizeTx] true).1.m_state =
        .invalid .PCKG_TX "transaction failed" ∧
      findResult (ProcessNewPackage engineRejectSize [] [oversizeTx] true).1.m_tx_results
          oversizeTx.txid =
        some (.invalid "tx-size") :=
  ⟨by decide, rfl,
    (processNewPackage_single_oversized engineRejectSize [] oversizeTx "tx-size"
      (by decide) rfl).1,
    (processNewPackage_single_oversized engineRejectSize [] oversizeTx "tx-size"
      (by decide) rfl).2⟩

/-- C9: a two-member package [parent, child] where the child spends the
parent, within the size bound, with both members individually valid
under the engine, yields an overall valid state in test-accept mode and
a per-transaction mapping carrying an individually valid entry for each
member under its identifier. -/
theorem processNewPackage_parent_child
    (engine : Transaction → MempoolAcceptResult) (pool : Mempool)
    (parent child : Transaction)
    (_hspend : txSpends child parent = true)
    (hrev : txSpends parent child = false)
    (hid : parent.txid ≠ child.txid)
    (hsz : totalVsize [parent, child] ≤ 101000)
    (vp fp vc fc : Nat)
    (hp : engine parent = .valid vp fp)
    (hc : engine child = .valid vc fc) :
    (ProcessNewPackage engine pool [parent, child] true).1.m_state = .valid ∧
      findResult (ProcessNewPackage engine pool [parent, child] true).1.m_tx_results
          parent.txid = some (.valid vp fp) ∧
      findResult (ProcessNewPackage engine pool [parent, child] true).1.m_tx_results
          child.txid = some (.valid vc fc) := by
  have hchk : CheckPackage [parent, child] = .valid := by
    have h1 : ¬ (([parent, child] : Package).length > MAX_PACKAGE_COUNT) := by
      simp [MAX_PACKAGE_COUNT]
    have h2 : ¬ (([parent, child] : Package).length > 1 ∧
        totalVsize [parent, child] > MAX_PACKAGE_SIZE * 1000) := by
      rintro ⟨-, hgt⟩
      simp only [MAX_PACKAGE_SIZE] at hgt
      omega
    have h3 : ¬ (sortedPackage [parent, child] = false) := by
      simp [sortedPackage, hrev]
    unfold CheckPackage
    rw [if_neg h1, if_neg h2, if_neg h3]
  have hbeq : (parent.txid == child.txid) = false := by
    simp [hid]
  simp [ProcessNewPackage, hchk, hp, hc, acceptOk, findResult, List.find?, hbeq]

/-- Concrete instance of the parent-child scenario: the pair
[parentTx, childTx] is overall valid with both entries valid in the
mapping. -/
theorem processNewPackage_parent_child_witness :
    txSpends childTx parentTx = true ∧
      (ProcessNewPackage engineAllValid [] [parentTx, childTx] true).1.m_state =
        .valid ∧
      findResult
          (ProcessNewPackage engineAllValid [] [parentTx, childTx] true).1.m_tx_results
          parentTx.txid = some (.valid 100 0) ∧
      findResult
          (ProcessNewPackage engineAllValid [] [parentTx, childTx] true).1.m_tx_results
          childTx.txid = some (.valid 100 0) :=
  ⟨by decide,
    (processNewPackage_parent_child engineAllValid [] parentTx childTx
      (by decide) (by decide) (by decide) (by decide) 100 0 100 0 rfl rfl).1,
    (processNewPackage_parent_child engineAllValid [] parentTx childTx
      (by decide) (by decide) (by decide) (by decide) 100 0 100 0 rfl rfl).2.1,
    (processNewPackage_parent_child engineAllValid [] parentTx childTx
      (by decide) (by decide) (by decide) (by decide) 100 0 100 0 rfl rfl).2.2⟩
